import Mathlib

/-!
Verification development for the Crane3dPlugin crane dynamics core
(`Source/CraneModel/Public/Model.h`).  The repository ships only the header
(declarations, field defaults and doc comments) and a demonstration `main`;
the member-function bodies (`Model.cpp`) are not part of the source tree, so
every operation body below is modelled from the specification and marked
`Modelled from the spec:`.  Field names, default values, method names and
signatures follow `Model.h` directly.  Real (`double`) arithmetic is embedded
as exact rational arithmetic `ℚ`; the trigonometric functions appearing in the
non-linear formulations are embedded as truncated series so that every
definition stays executable.
-/

namespace crane3d

/-- The formulation selector of `Model.h` (`enum class ModelType`). -/
inductive ModelType where
  | Linear
  | Linear2
  | NonLinearConstantLine
  | NonLinearComplete
  | NonLinearOriginal
deriving DecidableEq

/-- Output state of the model (`struct ModelState` of `Model.h`). -/
structure ModelState where
  Alfa : ℚ := 0
  Beta : ℚ := 0
  RailOffset : ℚ := 0
  CartOffset : ℚ := 0
  LiftLine : ℚ := 0
  PayloadX : ℚ := 0
  PayloadY : ℚ := 0
  PayloadZ : ℚ := 0
deriving DecidableEq

/-- The crane model (`class Model` of `Model.h`).  Field names and default
values are those of the header's in-class initializers; the C++ field `Type`
is renamed `MType` because `Type` is reserved in Lean.  The scratch fields
`u1..N3`, `ADrcart..ANetwind`, `μ1`, `μ2` of the header are recomputed every
sub-step from current state and forces (spec §3, §9), so they are treated as
local temporaries of the sub-step functions, not as persistent fields. -/
@[ext] structure Model where
  MType : ModelType := ModelType.Linear
  Mpayload : ℚ := 1
  Mcart : ℚ := 1155/1000
  Mrail : ℚ := 2200/1000
  G : ℚ := 981/100
  RailFriction : ℚ := 100
  CartFriction : ℚ := 82
  WindingFriction : ℚ := 75
  RailLimitMin : ℚ := -30
  RailLimitMax : ℚ := 30
  CartLimitMin : ℚ := -35
  CartLimitMax : ℚ := 35
  LineLimitMin : ℚ := 5
  LineLimitMax : ℚ := 90
  μStaticDrySteel : ℚ := 7/10
  μKineticDrySteel : ℚ := 6/10
  X : ℚ := 0
  Y : ℚ := 0
  R : ℚ := 1/2
  Alfa : ℚ := 0
  Beta : ℚ := 0
  Δα : ℚ := 0
  Δα_vel : ℚ := 0
  Δβ : ℚ := 0
  Δβ_vel : ℚ := 0
  X_vel : ℚ := 0
  Y_vel : ℚ := 0
  R_vel : ℚ := 0
  Alfa_vel : ℚ := 0
  Beta_vel : ℚ := 0
  SimulationTime : ℚ := 0
  SimulationCounter : ℤ := 0
deriving DecidableEq

/-- The default-constructed model: all fields take the in-class initializer
values of `Model.h` (the constructor body is not in the source tree; the spec
describes construction as taking the hardcoded defaults, §3 lifecycle, §9). -/
def defaultModel : Model := {}

/-- Modelled from the spec: truncated sine series, standing in for the
trigonometric functions of the non-linear formulations (the governing
equations are not in the source tree and the state is rational). -/
def sinQ (x : ℚ) : ℚ := x - x ^ 3 / 6

/-- Modelled from the spec: truncated cosine series, companion to `sinQ`. -/
def cosQ (x : ℚ) : ℚ := 1 - x ^ 2 / 2

/-- Modelled from the spec: sign of a velocity, used by the refined friction
of the `NonLinearOriginal` formulation; zero at zero velocity so friction
alone never moves a resting axis (spec §4 step 1). -/
def signQ (x : ℚ) : ℚ := if 0 < x then 1 else if x < 0 then -1 else 0

/-- Modelled from the spec: `Model::GetAccel` — driving acceleration from the
applied force and effective inertia, minus a dissipative friction
acceleration opposing the current velocity (spec §4 step 1). -/
def getAccel (Fapplied mass currentVel friction : ℚ) : ℚ :=
  Fapplied / mass - friction * currentVel / mass

/-- Modelled from the spec: net rail-axis acceleration (part of
`Model::PrepareBasicRelations`); the rail drives rail, cart and payload. -/
def Model.netRail (m : Model) (Frail : ℚ) : ℚ :=
  getAccel Frail (m.Mrail + m.Mcart + m.Mpayload) m.X_vel m.RailFriction

/-- Modelled from the spec: net cart-axis acceleration (part of
`Model::PrepareBasicRelations`); the cart drives cart and payload. -/
def Model.netCart (m : Model) (Fcart : ℚ) : ℚ :=
  getAccel Fcart (m.Mcart + m.Mpayload) m.Y_vel m.CartFriction

/-- Modelled from the spec: net winch-axis acceleration (part of
`Model::PrepareBasicRelations`). -/
def Model.netWind (m : Model) (Fwind : ℚ) : ℚ :=
  getAccel Fwind m.Mpayload m.R_vel m.WindingFriction

/-- Modelled from the spec: `Model::BasicLinearModel` — small-angle
linearization; the swing deviation angles `Δα`, `Δβ` follow a damped harmonic
response driven by the cart/rail net accelerations; line length and line force
are ignored (spec §4; `Model.h` signature takes no `Fwind`).  The coupling
coefficients are unspecified in the spec (§9) and chosen as simple constants. -/
def Model.BasicLinearModel (m : Model) (dt Frail Fcart : ℚ) : Model :=
  let aRail := m.netRail Frail
  let aCart := m.netCart Fcart
  let accA := aCart - m.G * m.Δα - m.Δα_vel / 10
  let accB := aRail - m.G * m.Δβ - m.Δβ_vel / 10
  let va := m.Δα_vel + accA * dt
  let vb := m.Δβ_vel + accB * dt
  let vx := m.X_vel + aRail * dt
  let vy := m.Y_vel + aCart * dt
  { m with
    Δα_vel := va, Δα := m.Δα + va * dt,
    Δβ_vel := vb, Δβ := m.Δβ + vb * dt,
    Alfa_vel := va, Alfa := m.Alfa + va * dt,
    Beta_vel := vb, Beta := m.Beta + vb * dt,
    X_vel := vx, X := m.X + vx * dt,
    Y_vel := vy, Y := m.Y + vy * dt }

/-- Modelled from the spec: `Model::BasicLinearModel2` — the alternate
linearized parameterization: the same model class as `BasicLinearModel` with
different coupling and damping coefficients (spec §4). -/
def Model.BasicLinearModel2 (m : Model) (dt Frail Fcart : ℚ) : Model :=
  let aRail := m.netRail Frail
  let aCart := m.netCart Fcart
  let accA := 3/2 * aCart - m.G * m.Δα - m.Δα_vel / 5
  let accB := 3/2 * aRail - m.G * m.Δβ - m.Δβ_vel / 5
  let va := m.Δα_vel + accA * dt
  let vb := m.Δβ_vel + accB * dt
  let vx := m.X_vel + aRail * dt
  let vy := m.Y_vel + aCart * dt
  { m with
    Δα_vel := va, Δα := m.Δα + va * dt,
    Δβ_vel := vb, Δβ := m.Δβ + vb * dt,
    Alfa_vel := va, Alfa := m.Alfa + va * dt,
    Beta_vel := vb, Beta := m.Beta + vb * dt,
    X_vel := vx, X := m.X + vx * dt,
    Y_vel := vy, Y := m.Y + vy * dt }

/-- Modelled from the spec: `Model::NonLinearConstantPendulum` — non-linear
coupling between rail, cart and the two swing angles with the line length held
fixed; the line force is ignored (`Model.h` lines 17–19, spec §4). -/
def Model.NonLinearConstantPendulum (m : Model) (dt Frail Fcart : ℚ) : Model :=
  let aRail := m.netRail Frail
  let aCart := m.netCart Fcart
  let accA := (aCart * cosQ m.Alfa - m.G * sinQ m.Alfa
               + m.R * m.Beta_vel ^ 2 * sinQ m.Alfa * cosQ m.Alfa) / m.R
  let accB := (aRail * cosQ m.Beta - m.G * sinQ m.Beta
               + m.R * m.Alfa_vel ^ 2 * sinQ m.Beta * cosQ m.Beta) / m.R
  let va := m.Alfa_vel + accA * dt
  let vb := m.Beta_vel + accB * dt
  let vx := m.X_vel + (aRail + m.Mpayload * m.R * m.Beta_vel ^ 2 * sinQ m.Beta
                        / (m.Mrail + m.Mcart + m.Mpayload)) * dt
  let vy := m.Y_vel + (aCart + m.Mpayload * m.R * m.Alfa_vel ^ 2 * sinQ m.Alfa
                        / (m.Mcart + m.Mpayload)) * dt
  { m with
    Alfa_vel := va, Alfa := m.Alfa + va * dt,
    Beta_vel := vb, Beta := m.Beta + vb * dt,
    X_vel := vx, X := m.X + vx * dt,
    Y_vel := vy, Y := m.Y + vy * dt }

/-- Modelled from the spec: `Model::NonLinearCompleteModel` — full non-linear
coupling across rail, cart and winch, with line-length dynamics driven by the
line force (spec §4). -/
def Model.NonLinearCompleteModel (m : Model) (dt Frail Fcart Fwind : ℚ) : Model :=
  let aRail := m.netRail Frail
  let aCart := m.netCart Fcart
  let aWind := m.netWind Fwind
  let accR := aWind + m.G * cosQ m.Alfa * cosQ m.Beta
              - m.R * (m.Alfa_vel ^ 2 + m.Beta_vel ^ 2)
  let vr := m.R_vel + accR * dt
  let accA := (aCart * cosQ m.Alfa - m.G * sinQ m.Alfa
               - 2 * m.R_vel * m.Alfa_vel) / m.R
  let accB := (aRail * cosQ m.Beta - m.G * sinQ m.Beta
               - 2 * m.R_vel * m.Beta_vel) / m.R
  let va := m.Alfa_vel + accA * dt
  let vb := m.Beta_vel + accB * dt
  let vx := m.X_vel + aRail * dt
  let vy := m.Y_vel + aCart * dt
  { m with
    R_vel := vr, R := m.R + vr * dt,
    Alfa_vel := va, Alfa := m.Alfa + va * dt,
    Beta_vel := vb, Beta := m.Beta + vb * dt,
    X_vel := vx, X := m.X + vx * dt,
    Y_vel := vy, Y := m.Y + vy * dt }

/-- Modelled from the spec: `Model::NonLinearOriginalModel` — the same
coupling as `NonLinearCompleteModel` with a refined friction formulation that
adds a kinetic dry-friction term opposing the direction of motion of the rail
and cart axes (spec §4; coefficients `μKineticDrySteel` from `Model.h`). -/
def Model.NonLinearOriginalModel (m : Model) (dt Frail Fcart Fwind : ℚ) : Model :=
  let aRail := m.netRail Frail - m.μKineticDrySteel * m.G * signQ m.X_vel
  let aCart := m.netCart Fcart - m.μKineticDrySteel * m.G * signQ m.Y_vel
  let aWind := m.netWind Fwind
  let accR := aWind + m.G * cosQ m.Alfa * cosQ m.Beta
              - m.R * (m.Alfa_vel ^ 2 + m.Beta_vel ^ 2)
  let vr := m.R_vel + accR * dt
  let accA := (aCart * cosQ m.Alfa - m.G * sinQ m.Alfa
               - 2 * m.R_vel * m.Alfa_vel) / m.R
  let accB := (aRail * cosQ m.Beta - m.G * sinQ m.Beta
               - 2 * m.R_vel * m.Beta_vel) / m.R
  let va := m.Alfa_vel + accA * dt
  let vb := m.Beta_vel + accB * dt
  let vx := m.X_vel + aRail * dt
  let vy := m.Y_vel + aCart * dt
  { m with
    R_vel := vr, R := m.R + vr * dt,
    Alfa_vel := va, Alfa := m.Alfa + va * dt,
    Beta_vel := vb, Beta := m.Beta + vb * dt,
    X_vel := vx, X := m.X + vx * dt,
    Y_vel := vy, Y := m.Y + vy * dt }

/-- Modelled from the spec §4 step 3: clamp one axis position into its
configured range, zeroing the axis velocity whenever the position was
clamped (so no energy is retained across the wall collision). -/
def clampAxis (pos vel lo hi : ℚ) : ℚ × ℚ :=
  if pos < lo then (lo, 0) else if hi < pos then (hi, 0) else (pos, vel)

/-- Modelled from the spec: `Model::ApplyLimits` — clamp rail offset, cart
offset and line length into their configured ranges, zeroing a clamped axis's
velocity (spec §4 step 3, §3 invariants). -/
def Model.ApplyLimits (m : Model) : Model :=
  let x := clampAxis m.X m.X_vel m.RailLimitMin m.RailLimitMax
  let y := clampAxis m.Y m.Y_vel m.CartLimitMin m.CartLimitMax
  let r := clampAxis m.R m.R_vel m.LineLimitMin m.LineLimitMax
  { m with X := x.1, X_vel := x.2, Y := y.1, Y_vel := y.2, R := r.1, R_vel := r.2 }

/-- Modelled from the spec §4 step 4: a numerically small residual value is
attenuated to rest (the exact threshold is unspecified; 10⁻⁵ is used). -/
def dampen (v : ℚ) : ℚ := if v < 1/100000 ∧ -(1/100000) < v then 0 else v

/-- Modelled from the spec: `Model::DampenAllValues` — attenuate all small
residual velocities and angles toward rest to suppress long-run floating
drift (spec §4 step 4; a stabilization heuristic, not part of the physical
model). -/
def Model.DampenAllValues (m : Model) : Model :=
  { m with
    X_vel := dampen m.X_vel, Y_vel := dampen m.Y_vel, R_vel := dampen m.R_vel,
    Alfa_vel := dampen m.Alfa_vel, Beta_vel := dampen m.Beta_vel,
    Δα_vel := dampen m.Δα_vel, Δβ_vel := dampen m.Δβ_vel,
    Alfa := dampen m.Alfa, Beta := dampen m.Beta,
    Δα := dampen m.Δα, Δβ := dampen m.Δβ }

/-- Modelled from the spec §4: dispatch to exactly one of the five
formulations, selected by the formulation selector. -/
def Model.integrateStep (m : Model) (dt Frail Fcart Fwind : ℚ) : Model :=
  match m.MType with
  | ModelType.Linear => m.BasicLinearModel dt Frail Fcart
  | ModelType.Linear2 => m.BasicLinearModel2 dt Frail Fcart
  | ModelType.NonLinearConstantLine => m.NonLinearConstantPendulum dt Frail Fcart
  | ModelType.NonLinearComplete => m.NonLinearCompleteModel dt Frail Fcart Fwind
  | ModelType.NonLinearOriginal => m.NonLinearOriginalModel dt Frail Fcart Fwind

/-- Modelled from the spec §4: one integration sub-step — formulation
dispatch, then limit enforcement, then damping, counting the sub-step in
`SimulationCounter` (`Model.h` line 126). -/
def Model.subStep (m : Model) (dt Frail Fcart Fwind : ℚ) : Model :=
  let m1 := ((m.integrateStep dt Frail Fcart Fwind).ApplyLimits).DampenAllValues
  { m1 with SimulationCounter := m1.SimulationCounter + 1 }

/-- Modelled from the spec §4.2: the sub-step loop of `UpdateFixed` — while
the time bank `SimulationTime` holds at least `fixedTime`, perform one
sub-step of size `fixedTime` and subtract it from the bank.  The loop is
realized with an explicit fuel bound `⌊SimulationTime/fixedTime⌋ + 1`, which
is provably sufficient (see `stepLoopFuel_eq_stepLoop` and the counter lemma
below), so the definition computes and is extensionally the while loop.
A non-positive `fixedTime` is a caller error (spec §7) and the loop is
modelled as returning the state unchanged in that case. -/
def Model.stepLoopFuel (fuel : Nat) (fixedTime Frail Fcart Fwind : ℚ) (m : Model) : Model :=
  match fuel with
  | 0 => m
  | Nat.succ k =>
    if 0 < fixedTime ∧ fixedTime ≤ m.SimulationTime then
      Model.stepLoopFuel k fixedTime Frail Fcart Fwind
        { m.subStep fixedTime Frail Fcart Fwind with
            SimulationTime := m.SimulationTime - fixedTime }
    else m

/-- Modelled from the spec §4.2: the sub-step loop with its canonical
(sufficient) fuel. -/
def Model.stepLoop (fixedTime Frail Fcart Fwind : ℚ) (m : Model) : Model :=
  Model.stepLoopFuel ((⌊m.SimulationTime / fixedTime⌋).toNat + 1)
    fixedTime Frail Fcart Fwind m

/-- Adding elapsed time to the internal time bank (the first action of
`UpdateFixed` per spec §4.2). -/
def Model.addBank (m : Model) (d : ℚ) : Model :=
  { m with SimulationTime := m.SimulationTime + d }

/-- Modelled from the spec: `Model::UpdateFixed` — accumulate `deltaTime`
into the time bank, then run the fixed-size sub-step loop (`Model.h` line
141, spec §4.2).  The C++ method returns the new snapshot and mutates the
object; here the whole resulting object is returned and the snapshot is
`GetState` of the result. -/
def Model.UpdateFixed (m : Model) (fixedTime deltaTime Frail Fcart Fwind : ℚ) : Model :=
  Model.stepLoop fixedTime Frail Fcart Fwind (m.addBank deltaTime)

/-- Modelled from the spec: `Model::Update` — a single sub-step using
`deltaTime` directly as the step size, not touching the time bank
(`Model.h` line 151, spec §4.2). -/
def Model.Update (m : Model) (deltaTime Frail Fcart Fwind : ℚ) : Model :=
  m.subStep deltaTime Frail Fcart Fwind

/-- Modelled from the spec: `Model::GetState` — a value snapshot of angles,
offsets, line length and the payload position derived by forward kinematics
(spec §3 StateSnapshot; trig via the same truncated series). -/
def Model.GetState (m : Model) : ModelState :=
  { Alfa := m.Alfa, Beta := m.Beta,
    RailOffset := m.X, CartOffset := m.Y, LiftLine := m.R,
    PayloadX := m.X + m.R * sinQ m.Beta,
    PayloadY := m.Y + m.R * sinQ m.Alfa,
    PayloadZ := -(m.R * cosQ m.Alfa * cosQ m.Beta) }

/-- The configured-limits invariant of spec §3: each position lies in its
closed configured interval. -/
def Model.inLimits (m : Model) : Prop :=
  m.RailLimitMin ≤ m.X ∧ m.X ≤ m.RailLimitMax ∧
  m.CartLimitMin ≤ m.Y ∧ m.Y ≤ m.CartLimitMax ∧
  m.LineLimitMin ≤ m.R ∧ m.R ≤ m.LineLimitMax

/-- A rest configuration in the sense of spec §8: gravity zero, every
velocity zero, every position inside its configured limits, and every angle
left unchanged by the damping attenuation (zero, or at least the damping
threshold in magnitude). -/
def Model.Rest (m : Model) : Prop :=
  m.G = 0 ∧
  m.X_vel = 0 ∧ m.Y_vel = 0 ∧ m.R_vel = 0 ∧
  m.Alfa_vel = 0 ∧ m.Beta_vel = 0 ∧ m.Δα_vel = 0 ∧ m.Δβ_vel = 0 ∧
  m.RailLimitMin ≤ m.X ∧ m.X ≤ m.RailLimitMax ∧
  m.CartLimitMin ≤ m.Y ∧ m.Y ≤ m.CartLimitMax ∧
  m.LineLimitMin ≤ m.R ∧ m.R ≤ m.LineLimitMax ∧
  dampen m.Alfa = m.Alfa ∧ dampen m.Beta = m.Beta ∧
  dampen m.Δα = m.Δα ∧ dampen m.Δβ = m.Δβ

/-- The persistent physical-and-configuration part of the model: everything
except the internal time bank and the debug sub-step counter. -/
def Model.physPart (m : Model) : Model :=
  { m with SimulationTime := 0, SimulationCounter := 0 }

/-- One public update entry point with its timing arguments, used to state
properties about arbitrary sequences of calls. -/
inductive CraneCall where
  | upd (dt : ℚ)
  | updFixed (fixedTime deltaTime : ℚ)

/-- Run a sequence of public update calls, all with the given fixed forces. -/
def runCalls (Frail Fcart Fwind : ℚ) (m : Model) : List CraneCall → Model
  | [] => m
  | CraneCall.upd dt :: cs =>
      runCalls Frail Fcart Fwind (m.Update dt Frail Fcart Fwind) cs
  | CraneCall.updFixed ft dt :: cs =>
      runCalls Frail Fcart Fwind (m.UpdateFixed ft dt Frail Fcart Fwind) cs

/-! ## Helper lemmas about the sub-step and the sub-step loop -/

/-- The number of pending sub-steps for a bank `t` and step `f`. -/
lemma floor_toNat_zero (f t : ℚ) (hf : 0 < f) (ht : t < f) : (⌊t / f⌋).toNat = 0 := by
  have h1 : t / f < 1 := (div_lt_one hf).mpr ht
  have h2 : ⌊t / f⌋ < (1 : ℤ) := Int.floor_lt.mpr (by exact_mod_cast h1)
  omega

lemma floor_toNat_step (f t : ℚ) (hf : 0 < f) (ht : f ≤ t) :
    (⌊(t - f) / f⌋).toNat + 1 = (⌊t / f⌋).toNat := by
  have hne : f ≠ 0 := ne_of_gt hf
  have h3 : ⌊(t - f) / f⌋ = ⌊t / f⌋ - 1 := by
    rw [sub_div, div_self hne, Int.floor_sub_one]
  have h1 : (1 : ℚ) ≤ t / f := (one_le_div hf).mpr ht
  have h2 : (1 : ℤ) ≤ ⌊t / f⌋ := by
    rw [Int.le_floor]; exact_mod_cast h1
  omega

/-- A sub-step never touches the time bank. -/
lemma subStep_time (m : Model) (dt a b c : ℚ) :
    (m.subStep dt a b c).SimulationTime = m.SimulationTime := by
  cases m with
  | mk ty f2 f3 f4 f5 f6 f7 f8 f9 f10 f11 f12 f13 f14 f15 f16 f17 f18 f19 f20
      f21 f22 f23 f24 f25 f26 f27 f28 f29 f30 f31 f32 =>
    cases ty <;> rfl

/-- A sub-step increments the debug sub-step counter exactly once. -/
lemma subStep_counter (m : Model) (dt a b c : ℚ) :
    (m.subStep dt a b c).SimulationCounter = m.SimulationCounter + 1 := by
  cases m with
  | mk ty f2 f3 f4 f5 f6 f7 f8 f9 f10 f11 f12 f13 f14 f15 f16 f17 f18 f19 f20
      f21 f22 f23 f24 f25 f26 f27 f28 f29 f30 f31 f32 =>
    cases ty <;> rfl

/-- A sub-step never changes the formulation selector. -/
lemma subStep_mtype (m : Model) (dt a b c : ℚ) :
    (m.subStep dt a b c).MType = m.MType := by
  cases m with
  | mk ty f2 f3 f4 f5 f6 f7 f8 f9 f10 f11 f12 f13 f14 f15 f16 f17 f18 f19 f20
      f21 f22 f23 f24 f25 f26 f27 f28 f29 f30 f31 f32 =>
    cases ty <;> rfl

/-- A sub-step never changes the configured limit fields. -/
lemma subStep_limits (m : Model) (dt a b c : ℚ) :
    (m.subStep dt a b c).RailLimitMin = m.RailLimitMin ∧
    (m.subStep dt a b c).RailLimitMax = m.RailLimitMax ∧
    (m.subStep dt a b c).CartLimitMin = m.CartLimitMin ∧
    (m.subStep dt a b c).CartLimitMax = m.CartLimitMax ∧
    (m.subStep dt a b c).LineLimitMin = m.LineLimitMin ∧
    (m.subStep dt a b c).LineLimitMax = m.LineLimitMax := by
  cases m with
  | mk ty f2 f3 f4 f5 f6 f7 f8 f9 f10 f11 f12 f13 f14 f15 f16 f17 f18 f19 f20
      f21 f22 f23 f24 f25 f26 f27 f28 f29 f30 f31 f32 =>
    cases ty <;> exact ⟨rfl, rfl, rfl, rfl, rfl, rfl⟩

/-- A sub-step reads no field it does not preserve except through the physical
state, so it commutes with overwriting the time bank. -/
lemma subStep_setTime (m : Model) (t dt a b c : ℚ) :
    ({ m with SimulationTime := t } : Model).subStep dt a b c
      = { m.subStep dt a b c with SimulationTime := t } := by
  cases m with
  | mk ty f2 f3 f4 f5 f6 f7 f8 f9 f10 f11 f12 f13 f14 f15 f16 f17 f18 f19 f20
      f21 f22 f23 f24 f25 f26 f27 f28 f29 f30 f31 f32 =>
    cases ty <;> rfl

/-- Sufficiently large fuel values all realize the same while loop. -/
lemma stepLoopFuel_congr (f Fr Fc Fw : ℚ) :
    ∀ k j : Nat, ∀ m : Model,
      (⌊m.SimulationTime / f⌋).toNat < k → (⌊m.SimulationTime / f⌋).toNat < j →
      Model.stepLoopFuel k f Fr Fc Fw m = Model.stepLoopFuel j f Fr Fc Fw m := by
  intro k
  induction k with
  | zero => intro j m hk hj; omega
  | succ k ih =>
    intro j m hk hj
    cases j with
    | zero => omega
    | succ j =>
      by_cases hc : 0 < f ∧ f ≤ m.SimulationTime
      · have hstep := floor_toNat_step f m.SimulationTime hc.1 hc.2
        simp only [Model.stepLoopFuel, if_pos hc]
        apply ih
        · simpa using by omega
        · simpa using by omega
      · simp only [Model.stepLoopFuel, if_neg hc]

/-- If the loop guard fails, the loop returns the model unchanged. -/
lemma stepLoop_base (f Fr Fc Fw : ℚ) (m : Model)
    (h : ¬(0 < f ∧ f ≤ m.SimulationTime)) : m.stepLoop f Fr Fc Fw = m := by
  simp only [Model.stepLoop, Model.stepLoopFuel, if_neg h]

/-- If the loop guard holds, the loop performs one sub-step, subtracts the
fixed step from the bank, and continues. -/
lemma stepLoop_succ (f Fr Fc Fw : ℚ) (m : Model)
    (hf : 0 < f) (hle : f ≤ m.SimulationTime) :
    m.stepLoop f Fr Fc Fw
      = Model.stepLoop f Fr Fc Fw
          { m.subStep f Fr Fc Fw with SimulationTime := m.SimulationTime - f } := by
  have hstep := floor_toNat_step f m.SimulationTime hf hle
  have hb : ({ m.subStep f Fr Fc Fw with
      SimulationTime := m.SimulationTime - f } : Model).SimulationTime
      = m.SimulationTime - f := rfl
  conv_lhs => simp only [Model.stepLoop, Model.stepLoopFuel, if_pos (And.intro hf hle)]
  conv_rhs => simp only [Model.stepLoop]
  apply stepLoopFuel_congr
  · rw [hb]; omega
  · rw [hb]; omega

/-- Closed form of the loop: it performs exactly `⌊bank / fixedTime⌋` (taken
as a natural number) sub-steps, each counted once, and subtracts the fixed
step from the bank once per sub-step. -/
lemma stepLoop_count (f Fr Fc Fw : ℚ) (hf : 0 < f) :
    ∀ k : Nat, ∀ m : Model, (⌊m.SimulationTime / f⌋).toNat < k →
      (m.stepLoop f Fr Fc Fw).SimulationCounter
          = m.SimulationCounter + ((⌊m.SimulationTime / f⌋).toNat : ℤ) ∧
      (m.stepLoop f Fr Fc Fw).SimulationTime
          = m.SimulationTime - ((⌊m.SimulationTime / f⌋).toNat : ℚ) * f := by
  intro k
  induction k with
  | zero => intro m hk; omega
  | succ k ih =>
    intro m hk
    by_cases hle : f ≤ m.SimulationTime
    · have hstep := floor_toNat_step f m.SimulationTime hf hle
      rw [stepLoop_succ f Fr Fc Fw m hf hle]
      have hb : ({ m.subStep f Fr Fc Fw with
          SimulationTime := m.SimulationTime - f } : Model).SimulationTime
          = m.SimulationTime - f := rfl
      have hcnt : ({ m.subStep f Fr Fc Fw with
          SimulationTime := m.SimulationTime - f } : Model).SimulationCounter
          = m.SimulationCounter + 1 := subStep_counter m f Fr Fc Fw
      obtain ⟨hc1, hc2⟩ := ih { m.subStep f Fr Fc Fw with
          SimulationTime := m.SimulationTime - f } (by rw [hb]; omega)
      constructor
      · rw [hc1, hcnt, hb]; omega
      · rw [hc2, hb]
        have hq : ((⌊(m.SimulationTime - f) / f⌋).toNat : ℚ) + 1
            = ((⌊m.SimulationTime / f⌋).toNat : ℚ) := by exact_mod_cast hstep
        rw [← hq]; ring
    · have h0 : (⌊m.SimulationTime / f⌋).toNat = 0 :=
        floor_toNat_zero f _ hf (lt_of_not_le hle)
      rw [stepLoop_base f Fr Fc Fw m (fun hc => hle hc.2), h0]
      norm_num

/-- Elapsed time added to the bank can be added before or after running the
loop: running the loop, banking `d ≥ 0` more elapsed time and running it
again reaches the same state as banking everything first (the while loop
only ever consumes the bank from the top). -/
lemma stepLoop_shift (f Fr Fc Fw d : ℚ) (hd : 0 ≤ d) :
    ∀ k : Nat, ∀ m : Model, (⌊m.SimulationTime / f⌋).toNat < k →
      Model.stepLoop f Fr Fc Fw ((m.stepLoop f Fr Fc Fw).addBank d)
        = Model.stepLoop f Fr Fc Fw (m.addBank d) := by
  intro k
  induction k with
  | zero => intro m hk; omega
  | succ k ih =>
    intro m hk
    by_cases hf : 0 < f
    · by_cases hle : f ≤ m.SimulationTime
      · have hstep := floor_toNat_step f m.SimulationTime hf hle
        have hb : ({ m.subStep f Fr Fc Fw with
            SimulationTime := m.SimulationTime - f } : Model).SimulationTime
            = m.SimulationTime - f := rfl
        rw [stepLoop_succ f Fr Fc Fw m hf hle]
        rw [ih { m.subStep f Fr Fc Fw with SimulationTime := m.SimulationTime - f }
              (by rw [hb]; omega)]
        have hle2 : f ≤ (m.addBank d).SimulationTime := by
          show f ≤ m.SimulationTime + d
          linarith
        rw [stepLoop_succ f Fr Fc Fw (m.addBank d) hf hle2]
        show Model.stepLoop f Fr Fc Fw
              { m.subStep f Fr Fc Fw with SimulationTime := m.SimulationTime - f + d }
            = Model.stepLoop f Fr Fc Fw
              { (m.addBank d).subStep f Fr Fc Fw with
                  SimulationTime := m.SimulationTime + d - f }
        rw [show (m.addBank d).subStep f Fr Fc Fw
              = { m.subStep f Fr Fc Fw with SimulationTime := m.SimulationTime + d }
            from subStep_setTime m (m.SimulationTime + d) f Fr Fc Fw]
        show Model.stepLoop f Fr Fc Fw
              { m.subStep f Fr Fc Fw with SimulationTime := m.SimulationTime - f + d }
            = Model.stepLoop f Fr Fc Fw
              { m.subStep f Fr Fc Fw with SimulationTime := m.SimulationTime + d - f }
        rw [show m.SimulationTime - f + d = m.SimulationTime + d - f from by ring]
      · rw [stepLoop_base f Fr Fc Fw m (fun hc => hle hc.2)]
    · rw [stepLoop_base f Fr Fc Fw m (fun hc => hf hc.1)]

/-- With an ordered limit pair, the clamp lands in the closed interval. -/
lemma clampAxis_mem (pos vel lo hi : ℚ) (h : lo ≤ hi) :
    lo ≤ (clampAxis pos vel lo hi).1 ∧ (clampAxis pos vel lo hi).1 ≤ hi := by
  unfold clampAxis
  split_ifs with h1 h2
  · exact ⟨le_refl lo, h⟩
  · exact ⟨h, le_refl hi⟩
  · exact ⟨le_of_not_lt h1, le_of_not_lt h2⟩

/-- A position already inside its interval is not clamped and its velocity
is kept. -/
lemma clampAxis_id (pos vel lo hi : ℚ) (h1 : lo ≤ pos) (h2 : pos ≤ hi) :
    clampAxis pos vel lo hi = (pos, vel) := by
  unfold clampAxis
  rw [if_neg (not_lt.mpr h1), if_neg (not_lt.mpr h2)]

lemma dampen_zero : dampen 0 = 0 := by norm_num [dampen]

lemma signQ_zero : signQ 0 = 0 := by norm_num [signQ]

/-- The formulation dispatch never changes the configured limit fields. -/
lemma integrate_limits (m : Model) (dt a b c : ℚ) :
    (m.integrateStep dt a b c).RailLimitMin = m.RailLimitMin ∧
    (m.integrateStep dt a b c).RailLimitMax = m.RailLimitMax ∧
    (m.integrateStep dt a b c).CartLimitMin = m.CartLimitMin ∧
    (m.integrateStep dt a b c).CartLimitMax = m.CartLimitMax ∧
    (m.integrateStep dt a b c).LineLimitMin = m.LineLimitMin ∧
    (m.integrateStep dt a b c).LineLimitMax = m.LineLimitMax := by
  cases m with
  | mk ty f2 f3 f4 f5 f6 f7 f8 f9 f10 f11 f12 f13 f14 f15 f16 f17 f18 f19 f20
      f21 f22 f23 f24 f25 f26 f27 f28 f29 f30 f31 f32 =>
    cases ty <;> exact ⟨rfl, rfl, rfl, rfl, rfl, rfl⟩

/-- `ApplyLimits` establishes the limit invariant for ordered limit pairs. -/
lemma applyLimits_inLimits (m : Model)
    (h1 : m.RailLimitMin ≤ m.RailLimitMax)
    (h2 : m.CartLimitMin ≤ m.CartLimitMax)
    (h3 : m.LineLimitMin ≤ m.LineLimitMax) :
    (m.ApplyLimits).inLimits := by
  refine ⟨?_, ?_, ?_, ?_, ?_, ?_⟩
  · exact (clampAxis_mem m.X m.X_vel _ _ h1).1
  · exact (clampAxis_mem m.X m.X_vel _ _ h1).2
  · exact (clampAxis_mem m.Y m.Y_vel _ _ h2).1
  · exact (clampAxis_mem m.Y m.Y_vel _ _ h2).2
  · exact (clampAxis_mem m.R m.R_vel _ _ h3).1
  · exact (clampAxis_mem m.R m.R_vel _ _ h3).2

/-- Every sub-step ends inside the configured limits (ordered limit pairs). -/
lemma subStep_inLimits (m : Model) (dt a b c : ℚ)
    (h1 : m.RailLimitMin ≤ m.RailLimitMax)
    (h2 : m.CartLimitMin ≤ m.CartLimitMax)
    (h3 : m.LineLimitMin ≤ m.LineLimitMax) :
    (m.subStep dt a b c).inLimits := by
  have l := integrate_limits m dt a b c
  exact applyLimits_inLimits (m.integrateStep dt a b c)
    (by rw [l.1, l.2.1]; exact h1)
    (by rw [l.2.2.1, l.2.2.2.1]; exact h2)
    (by rw [l.2.2.2.2.1, l.2.2.2.2.2]; exact h3)

/-- If the loop performs at least one sub-step, it returns inside the
configured limits. -/
lemma stepLoop_inLimits (f Fr Fc Fw : ℚ) (hf : 0 < f) :
    ∀ k : Nat, ∀ m : Model, (⌊m.SimulationTime / f⌋).toNat < k →
      m.RailLimitMin ≤ m.RailLimitMax → m.CartLimitMin ≤ m.CartLimitMax →
      m.LineLimitMin ≤ m.LineLimitMax → f ≤ m.SimulationTime →
      (m.stepLoop f Fr Fc Fw).inLimits := by
  intro k
  induction k with
  | zero => intro m hk _ _ _ _; omega
  | succ k ih =>
    intro m hk h1 h2 h3 hle
    have hstep := floor_toNat_step f m.SimulationTime hf hle
    have hb : ({ m.subStep f Fr Fc Fw with
        SimulationTime := m.SimulationTime - f } : Model).SimulationTime
        = m.SimulationTime - f := rfl
    have hl := subStep_limits m f Fr Fc Fw
    rw [stepLoop_succ f Fr Fc Fw m hf hle]
    by_cases hle2 : f ≤ m.SimulationTime - f
    · exact ih { m.subStep f Fr Fc Fw with SimulationTime := m.SimulationTime - f }
        (by rw [hb]; omega)
        (by rw [show ({ m.subStep f Fr Fc Fw with
              SimulationTime := m.SimulationTime - f } : Model).RailLimitMin
              = m.RailLimitMin from hl.1,
            show ({ m.subStep f Fr Fc Fw with
              SimulationTime := m.SimulationTime - f } : Model).RailLimitMax
              = m.RailLimitMax from hl.2.1]; exact h1)
        (by rw [show ({ m.subStep f Fr Fc Fw with
              SimulationTime := m.SimulationTime - f } : Model).CartLimitMin
              = m.CartLimitMin from hl.2.2.1,
            show ({ m.subStep f Fr Fc Fw with
              SimulationTime := m.SimulationTime - f } : Model).CartLimitMax
              = m.CartLimitMax from hl.2.2.2.1]; exact h2)
        (by rw [show ({ m.subStep f Fr Fc Fw with
              SimulationTime := m.SimulationTime - f } : Model).LineLimitMin
              = m.LineLimitMin from hl.2.2.2.2.1,
            show ({ m.subStep f Fr Fc Fw with
              SimulationTime := m.SimulationTime - f } : Model).LineLimitMax
              = m.LineLimitMax from hl.2.2.2.2.2]; exact h3)
        hle2
    · rw [stepLoop_base f Fr Fc Fw _ (fun hc => hle2 hc.2)]
      exact subStep_inLimits m f Fr Fc Fw h1 h2 h3

/-- At a rest configuration with zero forces and zero gravity, one sub-step
changes nothing but the debug counter, for every formulation. -/
lemma rest_subStep (m : Model) (dt : ℚ) (h : m.Rest) :
    (m.subStep dt 0 0 0).physPart = m.physPart := by
  obtain ⟨hG, h1, h2, h3, h4, h5, h6, h7, hx1, hx2, hy1, hy2, hr1, hr2,
    ha1, ha2, ha3, ha4⟩ := h
  have cx := clampAxis_id m.X 0 m.RailLimitMin m.RailLimitMax hx1 hx2
  have cy := clampAxis_id m.Y 0 m.CartLimitMin m.CartLimitMax hy1 hy2
  have cr := clampAxis_id m.R 0 m.LineLimitMin m.LineLimitMax hr1 hr2
  cases hm : m.MType <;>
    simp [Model.subStep, Model.integrateStep, hm, Model.BasicLinearModel,
      Model.BasicLinearModel2, Model.NonLinearConstantPendulum,
      Model.NonLinearCompleteModel, Model.NonLinearOriginalModel,
      Model.netRail, Model.netCart, Model.netWind, getAccel, signQ_zero,
      Model.ApplyLimits, Model.DampenAllValues, Model.physPart,
      hG, h1, h2, h3, h4, h5, h6, h7, cx, cy, cr, dampen_zero,
      ha1, ha2, ha3, ha4]

/-- `Rest` only depends on the persistent physical/configuration part. -/
lemma rest_of_physPart_eq (m m' : Model) (h : m'.physPart = m.physPart)
    (hr : m.Rest) : m'.Rest := by
  have hr' : (m.physPart).Rest := hr
  have hr'' : (m'.physPart).Rest := by rw [h]; exact hr'
  exact hr''

/-- At a rest configuration with zero forces and zero gravity, the whole
sub-step loop preserves the persistent physical/configuration part. -/
lemma rest_stepLoop (f : ℚ) :
    ∀ k : Nat, ∀ m : Model, (⌊m.SimulationTime / f⌋).toNat < k → m.Rest →
      (m.stepLoop f 0 0 0).physPart = m.physPart := by
  intro k
  induction k with
  | zero => intro m hk _; omega
  | succ k ih =>
    intro m hk hr
    by_cases hc : 0 < f ∧ f ≤ m.SimulationTime
    · have hstep := floor_toNat_step f m.SimulationTime hc.1 hc.2
      have hb : ({ m.subStep f 0 0 0 with
          SimulationTime := m.SimulationTime - f } : Model).SimulationTime
          = m.SimulationTime - f := rfl
      have hp1 : ({ m.subStep f 0 0 0 with
          SimulationTime := m.SimulationTime - f } : Model).physPart = m.physPart :=
        rest_subStep m f hr
      rw [stepLoop_succ f 0 0 0 m hc.1 hc.2]
      rw [ih { m.subStep f 0 0 0 with SimulationTime := m.SimulationTime - f }
            (by rw [hb]; omega) (rest_of_physPart_eq m _ hp1 hr)]
      exact hp1
    · rw [stepLoop_base f 0 0 0 m hc]

/-- At a rest configuration, any sequence of public update calls with zero
forces preserves the persistent physical/configuration part. -/
lemma rest_runCalls :
    ∀ cs : List CraneCall, ∀ m : Model, m.Rest →
      (runCalls 0 0 0 m cs).physPart = m.physPart := by
  intro cs
  induction cs with
  | nil => intro m _; rfl
  | cons c cs ih =>
    intro m hr
    cases c with
    | upd dt =>
      have h1 : (m.Update dt 0 0 0).physPart = m.physPart := rest_subStep m dt hr
      calc (runCalls 0 0 0 (m.Update dt 0 0 0) cs).physPart
          = (m.Update dt 0 0 0).physPart :=
            ih (m.Update dt 0 0 0) (rest_of_physPart_eq m _ h1 hr)
        _ = m.physPart := h1
    | updFixed ft dt =>
      have hb : (m.addBank dt).physPart = m.physPart := rfl
      have hr2 : (m.addBank dt).Rest := rest_of_physPart_eq m _ hb hr
      have h1 : (m.UpdateFixed ft dt 0 0 0).physPart = m.physPart := by
        calc (Model.stepLoop ft 0 0 0 (m.addBank dt)).physPart
            = (m.addBank dt).physPart :=
              rest_stepLoop ft ((⌊(m.addBank dt).SimulationTime / ft⌋).toNat + 1)
                (m.addBank dt) (by omega) hr2
          _ = m.physPart := hb
      calc (runCalls 0 0 0 (m.UpdateFixed ft dt 0 0 0) cs).physPart
          = (m.UpdateFixed ft dt 0 0 0).physPart :=
            ih (m.UpdateFixed ft dt 0 0 0) (rest_of_physPart_eq m _ h1 hr)
        _ = m.physPart := h1

/-- A position strictly above its upper limit is clamped to the limit and the
axis velocity is zeroed. -/
lemma clampAxis_high (pos vel lo hi : ℚ) (hlo : lo ≤ hi) (h : hi < pos) :
    clampAxis pos vel lo hi = (hi, 0) := by
  unfold clampAxis
  rw [if_neg (not_lt.mpr (le_trans hlo (le_of_lt h))), if_pos h]

/-- A position strictly below its lower limit is clamped to the limit and the
axis velocity is zeroed. -/
lemma clampAxis_low (pos vel lo hi : ℚ) (h : pos < lo) :
    clampAxis pos vel lo hi = (lo, 0) := by
  unfold clampAxis
  rw [if_pos h]

/-- The three formulations that take no line-force argument ignore it. -/
lemma integrate_fwind (m : Model) (dt Fr Fc Fw Fw' : ℚ)
    (hm : m.MType = ModelType.Linear ∨ m.MType = ModelType.Linear2 ∨
          m.MType = ModelType.NonLinearConstantLine) :
    m.integrateStep dt Fr Fc Fw = m.integrateStep dt Fr Fc Fw' := by
  rcases hm with hm | hm | hm <;> simp [Model.integrateStep, hm]

lemma subStep_fwind (m : Model) (dt Fr Fc Fw Fw' : ℚ)
    (hm : m.MType = ModelType.Linear ∨ m.MType = ModelType.Linear2 ∨
          m.MType = ModelType.NonLinearConstantLine) :
    m.subStep dt Fr Fc Fw = m.subStep dt Fr Fc Fw' := by
  unfold Model.subStep
  rw [integrate_fwind m dt Fr Fc Fw Fw' hm]

lemma stepLoopFuel_fwind (f Fr Fc Fw Fw' : ℚ) :
    ∀ k : Nat, ∀ m : Model,
      (m.MType = ModelType.Linear ∨ m.MType = ModelType.Linear2 ∨
       m.MType = ModelType.NonLinearConstantLine) →
      Model.stepLoopFuel k f Fr Fc Fw m = Model.stepLoopFuel k f Fr Fc Fw' m := by
  intro k
  induction k with
  | zero => intro m _; rfl
  | succ k ih =>
    intro m hm
    by_cases hc : 0 < f ∧ f ≤ m.SimulationTime
    · simp only [Model.stepLoopFuel, if_pos hc]
      rw [subStep_fwind m f Fr Fc Fw Fw' hm]
      apply ih
      have e : ({ m.subStep f Fr Fc Fw' with
          SimulationTime := m.SimulationTime - f } : Model).MType = m.MType :=
        subStep_mtype m f Fr Fc Fw'
      rw [e]
      exact hm
    · simp only [Model.stepLoopFuel, if_neg hc]

lemma stepLoop_fwind (f Fr Fc Fw Fw' : ℚ) (m : Model)
    (hm : m.MType = ModelType.Linear ∨ m.MType = ModelType.Linear2 ∨
          m.MType = ModelType.NonLinearConstantLine) :
    m.stepLoop f Fr Fc Fw = m.stepLoop f Fr Fc Fw' := by
  unfold Model.stepLoop
  exact stepLoopFuel_fwind f Fr Fc Fw Fw' _ m hm

/-- The three formulations that take no line-force argument hold the line
length and line velocity fixed. -/
lemma integrate_line_const (m : Model) (dt Fr Fc Fw : ℚ)
    (hm : m.MType = ModelType.Linear ∨ m.MType = ModelType.Linear2 ∨
          m.MType = ModelType.NonLinearConstantLine) :
    (m.integrateStep dt Fr Fc Fw).R = m.R ∧
    (m.integrateStep dt Fr Fc Fw).R_vel = m.R_vel := by
  rcases hm with hm | hm | hm <;>
    simp [Model.integrateStep, hm, Model.BasicLinearModel, Model.BasicLinearModel2,
      Model.NonLinearConstantPendulum]

/-- `UpdateFixed` with elapsed time equal to the fixed step and a bank
holding less than one step performs exactly one sub-step. -/
lemma updateFixed_once (m : Model) (h Fr Fc Fw : ℚ) (hh : 0 < h)
    (hb0 : 0 ≤ m.SimulationTime) (hb1 : m.SimulationTime < h) :
    m.UpdateFixed h h Fr Fc Fw = m.subStep h Fr Fc Fw := by
  have e1 : (m.subStep h Fr Fc Fw).SimulationTime = m.SimulationTime :=
    subStep_time m h Fr Fc Fw
  have hle : h ≤ (m.addBank h).SimulationTime := by
    show h ≤ m.SimulationTime + h
    linarith
  unfold Model.UpdateFixed
  rw [stepLoop_succ h Fr Fc Fw (m.addBank h) hh hle]
  rw [show (m.addBank h).subStep h Fr Fc Fw
      = { m.subStep h Fr Fc Fw with SimulationTime := m.SimulationTime + h }
      from subStep_setTime m (m.SimulationTime + h) h Fr Fc Fw]
  show Model.stepLoop h Fr Fc Fw
      { m.subStep h Fr Fc Fw with SimulationTime := m.SimulationTime + h - h }
      = m.subStep h Fr Fc Fw
  rw [show m.SimulationTime + h - h = m.SimulationTime from by ring, ← e1]
  exact stepLoop_base h Fr Fc Fw (m.subStep h Fr Fc Fw)
    (fun hc => absurd hc.2 (not_le.mpr (by rw [e1]; exact hb1)))

/-! ## Claim theorems -/

/-- C1 (amended): for limit pairs ordered `min ≤ max`, after every `Update`
call, and after every `UpdateFixed` call that performs at least one
integration sub-step (`0 < fixedTime ≤ bank + deltaTime`), the rail offset,
cart offset and line length each lie in their closed configured interval. -/
theorem C1_limits_enforced (m : Model) (dt Fr Fc Fw : ℚ)
    (h1 : m.RailLimitMin ≤ m.RailLimitMax)
    (h2 : m.CartLimitMin ≤ m.CartLimitMax)
    (h3 : m.LineLimitMin ≤ m.LineLimitMax) :
    (m.Update dt Fr Fc Fw).inLimits ∧
    ∀ f dt2 : ℚ, 0 < f → f ≤ m.SimulationTime + dt2 →
      (m.UpdateFixed f dt2 Fr Fc Fw).inLimits := by
  constructor
  · exact subStep_inLimits m dt Fr Fc Fw h1 h2 h3
  · intro f dt2 hf hle
    unfold Model.UpdateFixed
    exact stepLoop_inLimits f Fr Fc Fw hf
      ((⌊(m.addBank dt2).SimulationTime / f⌋).toNat + 1) (m.addBank dt2)
      (by omega) h1 h2 h3 hle

/-- C1 witness: the amended invariant at the default model after one
`Update` call. -/
theorem C1_witness :
    defaultModel.RailLimitMin ≤ defaultModel.RailLimitMax ∧
    defaultModel.CartLimitMin ≤ defaultModel.CartLimitMax ∧
    defaultModel.LineLimitMin ≤ defaultModel.LineLimitMax ∧
    (defaultModel.Update 1 0 0 0).inLimits :=
  ⟨by norm_num [defaultModel], by norm_num [defaultModel], by norm_num [defaultModel],
    (C1_limits_enforced defaultModel 1 0 0 0 (by norm_num [defaultModel])
      (by norm_num [defaultModel]) (by norm_num [defaultModel])).1⟩

/-- C1 counterexample: a default-constructed model (line length 0.5, line
limits [5, 90]) returns from `UpdateFixed(fixedTime = 1/100, deltaTime = 0)`
with zero sub-steps performed and the line length still below
`LineLimitMin`, so the claimed invariant does not hold after every call. -/
theorem C1_counterexample :
    ¬ ((defaultModel.UpdateFixed (1/100) 0 0 0 0).LineLimitMin
        ≤ (defaultModel.UpdateFixed (1/100) 0 0 0 0).R) := by
  norm_num [Model.UpdateFixed, Model.stepLoop, Model.stepLoopFuel, Model.addBank,
    defaultModel]

/-- C2 (amended): from any starting state whose internal time bank is
non-negative and smaller than `h`, `UpdateFixed(fixedTime = h,
deltaTime = h, …)` performs exactly one sub-step and produces exactly the
same resulting state and returned snapshot as `Update(deltaTime = h, …)`. -/
theorem C2_single_substep_equiv (m : Model) (h Fr Fc Fw : ℚ) (hh : 0 < h)
    (hb0 : 0 ≤ m.SimulationTime) (hb1 : m.SimulationTime < h) :
    m.UpdateFixed h h Fr Fc Fw = m.Update h Fr Fc Fw ∧
    (m.UpdateFixed h h Fr Fc Fw).GetState = (m.Update h Fr Fc Fw).GetState := by
  have hmain : m.UpdateFixed h h Fr Fc Fw = m.Update h Fr Fc Fw :=
    updateFixed_once m h Fr Fc Fw hh hb0 hb1
  exact ⟨hmain, congrArg Model.GetState hmain⟩

/-- C2 witness: the equivalence at the default model (empty bank) with
`h = 1` and forces `(1, 2, 3)`. -/
theorem C2_witness :
    (0:ℚ) < 1 ∧ (0:ℚ) ≤ defaultModel.SimulationTime ∧
    defaultModel.SimulationTime < 1 ∧
    defaultModel.UpdateFixed 1 1 1 2 3 = defaultModel.Update 1 1 2 3 :=
  ⟨by norm_num, by norm_num [defaultModel], by norm_num [defaultModel],
    (C2_single_substep_equiv defaultModel 1 1 2 3 (by norm_num)
      (by norm_num [defaultModel]) (by norm_num [defaultModel])).1⟩

/-- C2 counterexample: with a pre-existing time bank of 1, `UpdateFixed(1, 1)`
performs two sub-steps while `Update(1)` performs one, and with a rail force
of 10 the returned snapshots differ in the rail offset, so the claimed
equivalence does not hold from every starting state. -/
theorem C2_counterexample :
    (({ defaultModel with SimulationTime := 1 } : Model).UpdateFixed 1 1 10 0 0).GetState.RailOffset
      ≠ (({ defaultModel with SimulationTime := 1 } : Model).Update 1 10 0 0).GetState.RailOffset := by
  norm_num [Model.UpdateFixed, Model.stepLoop, Model.stepLoopFuel, Model.addBank,
    defaultModel, Model.Update, Model.subStep, Model.integrateStep,
    Model.BasicLinearModel, Model.ApplyLimits, Model.DampenAllValues, clampAxis,
    dampen, Model.netRail, Model.netCart, Model.netWind, getAccel, Model.GetState]

/-- C3: for every starting state and every `h > 0`, one
`UpdateFixed(fixedTime = h, deltaTime = 2h)` call yields exactly the same
state as two successive `UpdateFixed(fixedTime = h, deltaTime = h)` calls
with the same forces (the time bank carries leftover time, never dropping
or early-integrating it). -/
theorem C3_split_call (m : Model) (h Fr Fc Fw : ℚ) (hh : 0 < h) :
    (m.UpdateFixed h h Fr Fc Fw).UpdateFixed h h Fr Fc Fw
      = m.UpdateFixed h (2*h) Fr Fc Fw := by
  unfold Model.UpdateFixed
  rw [stepLoop_shift h Fr Fc Fw h (le_of_lt hh)
      ((⌊(m.addBank h).SimulationTime / h⌋).toNat + 1) (m.addBank h) (by omega)]
  have e : (m.addBank h).addBank h = m.addBank (2*h) := by
    unfold Model.addBank
    show ({ m with SimulationTime := m.SimulationTime + h + h } : Model)
        = { m with SimulationTime := m.SimulationTime + 2*h }
    rw [show m.SimulationTime + h + h = m.SimulationTime + 2*h from by ring]
  rw [e]

/-- C3 witness: the splitting identity at the default model with `h = 1` and
rail force 1. -/
theorem C3_witness :
    (0:ℚ) < 1 ∧
    (defaultModel.UpdateFixed 1 1 1 0 0).UpdateFixed 1 1 1 0 0
      = defaultModel.UpdateFixed 1 (2*1) 1 0 0 :=
  ⟨by norm_num, C3_split_call defaultModel 1 1 0 0 (by norm_num)⟩

/-- C4: from any state with an empty time bank, `UpdateFixed(fixedTime = h,
deltaTime = 0, …)` with `h > 0` performs zero sub-steps and leaves the whole
state unchanged; the returned snapshot equals the pre-call snapshot. -/
theorem C4_zero_elapsed_noop (m : Model) (h Fr Fc Fw : ℚ)
    (hb : m.SimulationTime = 0) (hh : 0 < h) :
    m.UpdateFixed h 0 Fr Fc Fw = m ∧
    (m.UpdateFixed h 0 Fr Fc Fw).GetState = m.GetState := by
  have e : m.addBank 0 = m := by
    unfold Model.addBank
    rw [show m.SimulationTime + 0 = m.SimulationTime from by ring]
  have hmain : m.UpdateFixed h 0 Fr Fc Fw = m := by
    unfold Model.UpdateFixed
    rw [e]
    exact stepLoop_base h Fr Fc Fw m
      (fun hc => absurd hc.2 (by rw [hb]; exact not_le.mpr hh))
  exact ⟨hmain, congrArg Model.GetState hmain⟩

/-- C4 witness: the no-op at the default model with `h = 1` and forces
`(5, 6, 7)`. -/
theorem C4_witness :
    defaultModel.SimulationTime = 0 ∧ (0:ℚ) < 1 ∧
    defaultModel.UpdateFixed 1 0 5 6 7 = defaultModel :=
  ⟨by norm_num [defaultModel], by norm_num,
    (C4_zero_elapsed_noop defaultModel 1 5 6 7 (by norm_num [defaultModel])
      (by norm_num)).1⟩

/-- C5: whenever an update call clamps a position to a configured limit
(the integrated position left its ordered interval), the clamped position
equals the limit and the corresponding velocity is zeroed, for all three
axes and both interval ends. -/
theorem C5_clamp_neutralizes_velocity (m : Model) (dt Fr Fc Fw : ℚ)
    (h1 : m.RailLimitMin ≤ m.RailLimitMax)
    (h2 : m.CartLimitMin ≤ m.CartLimitMax)
    (h3 : m.LineLimitMin ≤ m.LineLimitMax) :
    (m.RailLimitMax < (m.integrateStep dt Fr Fc Fw).X →
      (m.Update dt Fr Fc Fw).X = m.RailLimitMax ∧ (m.Update dt Fr Fc Fw).X_vel = 0) ∧
    ((m.integrateStep dt Fr Fc Fw).X < m.RailLimitMin →
      (m.Update dt Fr Fc Fw).X = m.RailLimitMin ∧ (m.Update dt Fr Fc Fw).X_vel = 0) ∧
    (m.CartLimitMax < (m.integrateStep dt Fr Fc Fw).Y →
      (m.Update dt Fr Fc Fw).Y = m.CartLimitMax ∧ (m.Update dt Fr Fc Fw).Y_vel = 0) ∧
    ((m.integrateStep dt Fr Fc Fw).Y < m.CartLimitMin →
      (m.Update dt Fr Fc Fw).Y = m.CartLimitMin ∧ (m.Update dt Fr Fc Fw).Y_vel = 0) ∧
    (m.LineLimitMax < (m.integrateStep dt Fr Fc Fw).R →
      (m.Update dt Fr Fc Fw).R = m.LineLimitMax ∧ (m.Update dt Fr Fc Fw).R_vel = 0) ∧
    ((m.integrateStep dt Fr Fc Fw).R < m.LineLimitMin →
      (m.Update dt Fr Fc Fw).R = m.LineLimitMin ∧ (m.Update dt Fr Fc Fw).R_vel = 0) := by
  obtain ⟨l1, l2, l3, l4, l5, l6⟩ := integrate_limits m dt Fr Fc Fw
  refine ⟨fun hx => ?_, fun hx => ?_, fun hx => ?_, fun hx => ?_, fun hx => ?_,
    fun hx => ?_⟩
  · have e := clampAxis_high (m.integrateStep dt Fr Fc Fw).X
      (m.integrateStep dt Fr Fc Fw).X_vel (m.integrateStep dt Fr Fc Fw).RailLimitMin
      (m.integrateStep dt Fr Fc Fw).RailLimitMax (by rw [l1, l2]; exact h1)
      (by rw [l2]; exact hx)
    constructor
    · show (clampAxis (m.integrateStep dt Fr Fc Fw).X
        (m.integrateStep dt Fr Fc Fw).X_vel (m.integrateStep dt Fr Fc Fw).RailLimitMin
        (m.integrateStep dt Fr Fc Fw).RailLimitMax).1 = m.RailLimitMax
      rw [e, ← l2]
    · show dampen (clampAxis (m.integrateStep dt Fr Fc Fw).X
        (m.integrateStep dt Fr Fc Fw).X_vel (m.integrateStep dt Fr Fc Fw).RailLimitMin
        (m.integrateStep dt Fr Fc Fw).RailLimitMax).2 = 0
      rw [e]
      exact dampen_zero
  · have e := clampAxis_low (m.integrateStep dt Fr Fc Fw).X
      (m.integrateStep dt Fr Fc Fw).X_vel (m.integrateStep dt Fr Fc Fw).RailLimitMin
      (m.integrateStep dt Fr Fc Fw).RailLimitMax (by rw [l1]; exact hx)
    constructor
    · show (clampAxis (m.integrateStep dt Fr Fc Fw).X
        (m.integrateStep dt Fr Fc Fw).X_vel (m.integrateStep dt Fr Fc Fw).RailLimitMin
        (m.integrateStep dt Fr Fc Fw).RailLimitMax).1 = m.RailLimitMin
      rw [e, ← l1]
    · show dampen (clampAxis (m.integrateStep dt Fr Fc Fw).X
        (m.integrateStep dt Fr Fc Fw).X_vel (m.integrateStep dt Fr Fc Fw).RailLimitMin
        (m.integrateStep dt Fr Fc Fw).RailLimitMax).2 = 0
      rw [e]
      exact dampen_zero
  · have e := clampAxis_high (m.integrateStep dt Fr Fc Fw).Y
      (m.integrateStep dt Fr Fc Fw).Y_vel (m.integrateStep dt Fr Fc Fw).CartLimitMin
      (m.integrateStep dt Fr Fc Fw).CartLimitMax (by rw [l3, l4]; exact h2)
      (by rw [l4]; exact hx)
    constructor
    · show (clampAxis (m.integrateStep dt Fr Fc Fw).Y
        (m.integrateStep dt Fr Fc Fw).Y_vel (m.integrateStep dt Fr Fc Fw).CartLimitMin
        (m.integrateStep dt Fr Fc Fw).CartLimitMax).1 = m.CartLimitMax
      rw [e, ← l4]
    · show dampen (clampAxis (m.integrateStep dt Fr Fc Fw).Y
        (m.integrateStep dt Fr Fc Fw).Y_vel (m.integrateStep dt Fr Fc Fw).CartLimitMin
        (m.integrateStep dt Fr Fc Fw).CartLimitMax).2 = 0
      rw [e]
      exact dampen_zero
  · have e := clampAxis_low (m.integrateStep dt Fr Fc Fw).Y
      (m.integrateStep dt Fr Fc Fw).Y_vel (m.integrateStep dt Fr Fc Fw).CartLimitMin
      (m.integrateStep dt Fr Fc Fw).CartLimitMax (by rw [l3]; exact hx)
    constructor
    · show (clampAxis (m.integrateStep dt Fr Fc Fw).Y
        (m.integrateStep dt Fr Fc Fw).Y_vel (m.integrateStep dt Fr Fc Fw).CartLimitMin
        (m.integrateStep dt Fr Fc Fw).CartLimitMax).1 = m.CartLimitMin
      rw [e, ← l3]
    · show dampen (clampAxis (m.integrateStep dt Fr Fc Fw).Y
        (m.integrateStep dt Fr Fc Fw).Y_vel (m.integrateStep dt Fr Fc Fw).CartLimitMin
        (m.integrateStep dt Fr Fc Fw).CartLimitMax).2 = 0
      rw [e]
      exact dampen_zero
  · have e := clampAxis_high (m.integrateStep dt Fr Fc Fw).R
      (m.integrateStep dt Fr Fc Fw).R_vel (m.integrateStep dt Fr Fc Fw).LineLimitMin
      (m.integrateStep dt Fr Fc Fw).LineLimitMax (by rw [l5, l6]; exact h3)
      (by rw [l6]; exact hx)
    constructor
    · show (clampAxis (m.integrateStep dt Fr Fc Fw).R
        (m.integrateStep dt Fr Fc Fw).R_vel (m.integrateStep dt Fr Fc Fw).LineLimitMin
        (m.integrateStep dt Fr Fc Fw).LineLimitMax).1 = m.LineLimitMax
      rw [e, ← l6]
    · show dampen (clampAxis (m.integrateStep dt Fr Fc Fw).R
        (m.integrateStep dt Fr Fc Fw).R_vel (m.integrateStep dt Fr Fc Fw).LineLimitMin
        (m.integrateStep dt Fr Fc Fw).LineLimitMax).2 = 0
      rw [e]
      exact dampen_zero
  · have e := clampAxis_low (m.integrateStep dt Fr Fc Fw).R
      (m.integrateStep dt Fr Fc Fw).R_vel (m.integrateStep dt Fr Fc Fw).LineLimitMin
      (m.integrateStep dt Fr Fc Fw).LineLimitMax (by rw [l5]; exact hx)
    constructor
    · show (clampAxis (m.integrateStep dt Fr Fc Fw).R
        (m.integrateStep dt Fr Fc Fw).R_vel (m.integrateStep dt Fr Fc Fw).LineLimitMin
        (m.integrateStep dt Fr Fc Fw).LineLimitMax).1 = m.LineLimitMin
      rw [e, ← l5]
    · show dampen (clampAxis (m.integrateStep dt Fr Fc Fw).R
        (m.integrateStep dt Fr Fc Fw).R_vel (m.integrateStep dt Fr Fc Fw).LineLimitMin
        (m.integrateStep dt Fr Fc Fw).LineLimitMax).2 = 0
      rw [e]
      exact dampen_zero

/-- C5 witness: the boundary scenario of the claim — rail limit max 1.0 and a
sustained rail force 10 driving the integrated offset past the limit in one
sub-step: the post-update rail offset is exactly 1 and the rail velocity is
zeroed. -/
theorem C5_witness :
    (1:ℚ) < (({ defaultModel with RailLimitMax := 1 } : Model).integrateStep 1 10 0 0).X ∧
    (({ defaultModel with RailLimitMax := 1 } : Model).Update 1 10 0 0).X = 1 ∧
    (({ defaultModel with RailLimitMax := 1 } : Model).Update 1 10 0 0).X_vel = 0 := by
  have hx : ({ defaultModel with RailLimitMax := 1 } : Model).RailLimitMax
      < (({ defaultModel with RailLimitMax := 1 } : Model).integrateStep 1 10 0 0).X := by
    norm_num [defaultModel, Model.integrateStep, Model.BasicLinearModel,
      Model.netRail, Model.netCart, Model.netWind, getAccel]
  have hmain := (C5_clamp_neutralizes_velocity ({ defaultModel with RailLimitMax := 1 })
    1 10 0 0 (by norm_num [defaultModel]) (by norm_num [defaultModel])
    (by norm_num [defaultModel])).1 hx
  exact ⟨hx, hmain.1, hmain.2⟩

/-- C6: for the `Linear`, `Linear2` and `NonLinearConstantLine` formulations
the line-force input is unused — update calls differing only in `Fwind`
produce identical resulting states (hence identical snapshots) — and the
formulation step holds line length and line velocity fixed. -/
theorem C6_line_force_unused (m : Model) (f dt Fr Fc Fw Fw' : ℚ)
    (hm : m.MType = ModelType.Linear ∨ m.MType = ModelType.Linear2 ∨
          m.MType = ModelType.NonLinearConstantLine) :
    m.Update dt Fr Fc Fw = m.Update dt Fr Fc Fw' ∧
    m.UpdateFixed f dt Fr Fc Fw = m.UpdateFixed f dt Fr Fc Fw' ∧
    (m.integrateStep dt Fr Fc Fw).R = m.R ∧
    (m.integrateStep dt Fr Fc Fw).R_vel = m.R_vel := by
  refine ⟨subStep_fwind m dt Fr Fc Fw Fw' hm, ?_, (integrate_line_const m dt Fr Fc Fw hm).1,
    (integrate_line_const m dt Fr Fc Fw hm).2⟩
  unfold Model.UpdateFixed
  exact stepLoop_fwind f Fr Fc Fw Fw' (m.addBank dt) hm

/-- C6 witness: the invariance at the default model (`Linear`) between line
forces 5 and 7. -/
theorem C6_witness :
    (defaultModel.MType = ModelType.Linear ∨ defaultModel.MType = ModelType.Linear2 ∨
     defaultModel.MType = ModelType.NonLinearConstantLine) ∧
    defaultModel.Update 1 0 0 5 = defaultModel.Update 1 0 0 7 ∧
    defaultModel.UpdateFixed 1 1 0 0 5 = defaultModel.UpdateFixed 1 1 0 0 7 :=
  ⟨Or.inl rfl,
    (C6_line_force_unused defaultModel 1 1 0 0 5 7 (Or.inl rfl)).1,
    (C6_line_force_unused defaultModel 1 1 0 0 5 7 (Or.inl rfl)).2.1⟩

/-- C7 (amended): a state with all velocities zero, whose positions lie
inside the configured limits and whose angles are each left unchanged by the
damping attenuation (zero, or at least the damping threshold in magnitude),
with zero forces and zero gravity, is a fixed point of the physical state:
any sequence of `Update`/`UpdateFixed` calls with zero forces leaves the
whole persistent physical/configuration part unchanged (only the internal
time bank and debug counter may advance), for every formulation selector. -/
theorem C7_rest_fixed_point (m : Model) (cs : List CraneCall)
    (hG : m.G = 0)
    (hv1 : m.X_vel = 0) (hv2 : m.Y_vel = 0) (hv3 : m.R_vel = 0)
    (hv4 : m.Alfa_vel = 0) (hv5 : m.Beta_vel = 0)
    (hv6 : m.Δα_vel = 0) (hv7 : m.Δβ_vel = 0)
    (hp1 : m.RailLimitMin ≤ m.X) (hp2 : m.X ≤ m.RailLimitMax)
    (hp3 : m.CartLimitMin ≤ m.Y) (hp4 : m.Y ≤ m.CartLimitMax)
    (hp5 : m.LineLimitMin ≤ m.R) (hp6 : m.R ≤ m.LineLimitMax)
    (hd1 : dampen m.Alfa = m.Alfa) (hd2 : dampen m.Beta = m.Beta)
    (hd3 : dampen m.Δα = m.Δα) (hd4 : dampen m.Δβ = m.Δβ) :
    (runCalls 0 0 0 m cs).physPart = m.physPart :=
  rest_runCalls cs m
    ⟨hG, hv1, hv2, hv3, hv4, hv5, hv6, hv7, hp1, hp2, hp3, hp4, hp5, hp6,
      hd1, hd2, hd3, hd4⟩

/-- C7 witness: the default model with gravity zeroed and the line length
moved inside its limits is physically unchanged by an `Update` call followed
by an `UpdateFixed` call (both with zero forces). -/
theorem C7_witness :
    ({ defaultModel with G := 0, R := 5 } : Model).G = 0 ∧
    ({ defaultModel with G := 0, R := 5 } : Model).LineLimitMin
      ≤ ({ defaultModel with G := 0, R := 5 } : Model).R ∧
    (runCalls 0 0 0 ({ defaultModel with G := 0, R := 5 })
        [CraneCall.upd 1, CraneCall.updFixed (1/2) 1]).physPart
      = ({ defaultModel with G := 0, R := 5 } : Model).physPart :=
  ⟨by norm_num [defaultModel], by norm_num [defaultModel],
    C7_rest_fixed_point ({ defaultModel with G := 0, R := 5 })
      [CraneCall.upd 1, CraneCall.updFixed (1/2) 1]
      (by norm_num [defaultModel]) (by norm_num [defaultModel])
      (by norm_num [defaultModel]) (by norm_num [defaultModel])
      (by norm_num [defaultModel]) (by norm_num [defaultModel])
      (by norm_num [defaultModel]) (by norm_num [defaultModel])
      (by norm_num [defaultModel]) (by norm_num [defaultModel])
      (by norm_num [defaultModel]) (by norm_num [defaultModel])
      (by norm_num [defaultModel]) (by norm_num [defaultModel])
      (by norm_num [defaultModel, dampen]) (by norm_num [defaultModel, dampen])
      (by norm_num [defaultModel, dampen]) (by norm_num [defaultModel, dampen])⟩

/-- C7 counterexample: two zero-velocity, zero-force, zero-gravity states
that one `Update` call nevertheless changes — the default model, whose line
length 0.5 is clamped up to `LineLimitMin = 5`, and an in-limits state with
the numerically small swing angle 10⁻⁶, which the damping step attenuates to
zero.  So the claim does not hold for every zero-velocity state. -/
theorem C7_counterexample :
    (({ defaultModel with G := 0 } : Model).Update 1 0 0 0).R
      ≠ ({ defaultModel with G := 0 } : Model).R ∧
    (({ defaultModel with G := 0, R := 5, Alfa := 1/1000000 } : Model).Update 1 0 0 0).Alfa
      ≠ ({ defaultModel with G := 0, R := 5, Alfa := 1/1000000 } : Model).Alfa := by
  constructor <;>
    norm_num [defaultModel, Model.Update, Model.subStep, Model.integrateStep,
      Model.BasicLinearModel, Model.ApplyLimits, Model.DampenAllValues, clampAxis,
      dampen, Model.netRail, Model.netCart, Model.netWind, getAccel]

/-- C8: for every `fixedStep > 0` and non-negative elapsed time (and a
non-negative bank), the sub-step loop of `UpdateFixed` terminates after
exactly `⌊(bank + elapsedTime) / fixedStep⌋` sub-steps — counted once each in
`SimulationCounter` — and leaves `bank + elapsedTime − steps · fixedStep` in
the bank. -/
theorem C8_loop_termination_count (m : Model) (f dt Fr Fc Fw : ℚ)
    (hf : 0 < f) (hdt : 0 ≤ dt) (hbank : 0 ≤ m.SimulationTime) :
    (m.UpdateFixed f dt Fr Fc Fw).SimulationCounter
        = m.SimulationCounter + ((⌊(m.SimulationTime + dt) / f⌋).toNat : ℤ) ∧
    (m.UpdateFixed f dt Fr Fc Fw).SimulationTime
        = (m.SimulationTime + dt) - ((⌊(m.SimulationTime + dt) / f⌋).toNat : ℚ) * f := by
  unfold Model.UpdateFixed
  exact stepLoop_count f Fr Fc Fw hf
    ((⌊(m.addBank dt).SimulationTime / f⌋).toNat + 1) (m.addBank dt) (by omega)

/-- C8 witness: with `fixedStep = 1/2` and `elapsedTime = 5/4` the default
model performs exactly two sub-steps and banks the leftover 1/4. -/
theorem C8_witness :
    (0:ℚ) < 1/2 ∧ (0:ℚ) ≤ 5/4 ∧ (0:ℚ) ≤ defaultModel.SimulationTime ∧
    (defaultModel.UpdateFixed (1/2) (5/4) 1 2 3).SimulationCounter = 2 ∧
    (defaultModel.UpdateFixed (1/2) (5/4) 1 2 3).SimulationTime = 1/4 := by
  refine ⟨by norm_num, by norm_num, by norm_num [defaultModel], ?_, ?_⟩
  · rw [(C8_loop_termination_count defaultModel (1/2) (5/4) 1 2 3 (by norm_num)
      (by norm_num) (by norm_num [defaultModel])).1]
    norm_num [defaultModel]
  · rw [(C8_loop_termination_count defaultModel (1/2) (5/4) 1 2 3 (by norm_num)
      (by norm_num) (by norm_num [defaultModel])).2]
    rw [show defaultModel.SimulationTime = 0 from rfl,
      show ((0:ℚ) + 5/4) / (1/2) = 5/2 from by norm_num,
      show ⌊(5:ℚ)/2⌋ = 2 from by norm_num, show Int.toNat 2 = 2 from rfl]
    norm_num

/-- C9 (amended): `UpdateFixed` maintains a sub-step counter incremented
exactly once per integration sub-step, but the counter is a private debug
field (`Model.h` line 126): the public snapshot does not depend on it. -/
theorem C9_counter_per_substep (m : Model) (dt Fr Fc Fw : ℚ) (c : ℤ) :
    (m.subStep dt Fr Fc Fw).SimulationCounter = m.SimulationCounter + 1 ∧
    ({ m with SimulationCounter := c } : Model).GetState = m.GetState :=
  ⟨subStep_counter m dt Fr Fc Fw, rfl⟩

/-- C9 counterexample: the sub-step counter is not available to callers —
models differing only in the counter are indistinguishable through the whole
public interface (`GetState`, `Update`, `UpdateFixed` snapshots). -/
theorem C9_counterexample :
    ({ defaultModel with SimulationCounter := 42 } : Model).GetState
      = defaultModel.GetState ∧
    (({ defaultModel with SimulationCounter := 42 } : Model).Update 1 2 3 4).GetState
      = (defaultModel.Update 1 2 3 4).GetState ∧
    (({ defaultModel with SimulationCounter := 42 } : Model).UpdateFixed (1/2) 1 2 3 4).GetState
      = (defaultModel.UpdateFixed (1/2) 1 2 3 4).GetState := by
  refine ⟨rfl, rfl, ?_⟩
  norm_num [defaultModel, Model.UpdateFixed, Model.stepLoop, Model.stepLoopFuel,
    Model.addBank, Model.subStep, Model.integrateStep, Model.BasicLinearModel,
    Model.ApplyLimits, Model.DampenAllValues, clampAxis, dampen, Model.netRail,
    Model.netCart, Model.netWind, getAccel, Model.GetState]

/-- C10: the default-constructed model has formulation `Linear`, the
documented masses, gravity, frictions and limit pairs of `Model.h`, and the
initial physical state `X = Y = 0`, `R = 0.5`, all angles and velocities
zero. -/
theorem C10_default_configuration :
    defaultModel.MType = ModelType.Linear ∧
    defaultModel.Mpayload = 1 ∧ defaultModel.Mcart = 1155/1000 ∧
    defaultModel.Mrail = 2200/1000 ∧ defaultModel.G = 981/100 ∧
    defaultModel.RailFriction = 100 ∧ defaultModel.CartFriction = 82 ∧
    defaultModel.WindingFriction = 75 ∧
    defaultModel.RailLimitMin = -30 ∧ defaultModel.RailLimitMax = 30 ∧
    defaultModel.CartLimitMin = -35 ∧ defaultModel.CartLimitMax = 35 ∧
    defaultModel.LineLimitMin = 5 ∧ defaultModel.LineLimitMax = 90 ∧
    defaultModel.X = 0 ∧ defaultModel.Y = 0 ∧ defaultModel.R = 1/2 ∧
    defaultModel.Alfa = 0 ∧ defaultModel.Beta = 0 ∧
    defaultModel.Δα = 0 ∧ defaultModel.Δβ = 0 ∧
    defaultModel.X_vel = 0 ∧ defaultModel.Y_vel = 0 ∧ defaultModel.R_vel = 0 ∧
    defaultModel.Alfa_vel = 0 ∧ defaultModel.Beta_vel = 0 ∧
    defaultModel.Δα_vel = 0 ∧ defaultModel.Δβ_vel = 0 := by
  norm_num [defaultModel]

end crane3d
